import Mathlib

/-!
Shallow embedding of the Reservation & Settlement core of the ticketing
platform (Node.js/Express/MySQL source):

* `src/routes/tickets.js` — order creation (`router.post('/')`), buyer
  cancellation (`router.post('/:id/cancel')`), tier update/delete
  (`router.put('/tiers/:id')`, `router.delete('/tiers/:id')`);
* `src/config/stripe.js` — `handleWebhook`, `handlePaymentSuccess`,
  `handlePaymentFailure`, `handleCheckoutCompleted`, `handlePaymentCanceled`;
* `src/services/messageProcessors.js` — `processPaymentWebhook`;
* `src/middleware/validation.js` — `validateOrderCreation`.

Modelling conventions:
* the MySQL database is a record of row lists; SQL SELECT becomes
  `List.find?` / `List.filter`, UPDATE becomes `List.map`;
* a SQL transaction is a pure function building the post-state; COMMIT
  publishes it, ROLLBACK returns the pre-state.  A store failure during the
  transaction is injected by a fault parameter counting `execute` calls;
* `DECIMAL(10,2)` money columns are modelled as `ℤ` (exact fixed-point
  arithmetic; every money constant in the code and the claims is integral),
  `INT` columns as `ℤ` (the schema in `config/database.js` declares
  `sold_quantity INT`, signed);
* external nondeterminism (`Date.now()`, uuid ticket codes, auto-increment
  ids, Stripe signature verification, express-validator's `isEmail`) enters
  through explicit parameters.
-/

deriving instance DecidableEq for Except

namespace Ticketing

/-- `users.role ENUM('admin','organizer','customer')`. -/
inductive Role
  | admin
  | organizer
  | customer
deriving DecidableEq, Repr

/-- A row of the `users` table (the columns the core reads). -/
structure UserRow where
  id : Nat
  email : String
  role : Role
deriving DecidableEq, Repr

/-- `events.status ENUM('draft','published','cancelled','completed')`. -/
inductive EventStatus
  | draft
  | published
  | cancelled
  | completed
deriving DecidableEq, Repr

/-- A row of the `events` table (the columns the core reads). -/
structure EventRow where
  id : Nat
  organizer_id : Nat
  title : String
  status : EventStatus
deriving DecidableEq, Repr

/-- A row of the `ticket_tiers` table: `price DECIMAL(10,2)`,
`quantity INT NOT NULL`, `sold_quantity INT DEFAULT 0` (signed),
`sales_start_date`/`sales_end_date DATETIME` nullable (epoch-coded as `ℤ`),
`is_active BOOLEAN DEFAULT TRUE`. -/
structure TicketTier where
  id : Nat
  event_id : Nat
  name : String
  description : String
  price : ℤ
  quantity : ℤ
  sold_quantity : ℤ
  sales_start_date : Option ℤ
  sales_end_date : Option ℤ
  is_active : Bool
deriving DecidableEq, Repr

/-- `orders.status ENUM('pending','paid','cancelled','refunded')
DEFAULT 'pending'` (the schema has no `failed` member; payment failure and
cancellation both write `cancelled`). -/
inductive OrderStatus
  | pending
  | paid
  | cancelled
  | refunded
deriving DecidableEq, Repr

/-- A row of the `orders` table (the columns the core reads or writes). -/
structure Order where
  id : Nat
  user_id : Nat
  event_id : Nat
  order_number : String
  total_amount : ℤ
  status : OrderStatus
  stripe_payment_intent_id : Option String
  stripe_session_id : Option String
  billing_email : String
  billing_name : String
deriving DecidableEq, Repr

/-- `tickets.status ENUM('active','used','cancelled','refunded')
DEFAULT 'active'`. -/
inductive TicketStatus
  | active
  | used
  | cancelled
  | refunded
deriving DecidableEq, Repr

/-- A row of the `tickets` table. -/
structure Ticket where
  id : Nat
  order_id : Nat
  ticket_tier_id : Nat
  ticket_code : String
  attendee_name : String
  attendee_email : String
  status : TicketStatus
  qr_code : Option String
deriving DecidableEq, Repr

/-- The database state: one list of rows per table the core touches. -/
structure DB where
  users : List UserRow
  events : List EventRow
  ticket_tiers : List TicketTier
  orders : List Order
  tickets : List Ticket
deriving DecidableEq, Repr

/-- One element of the request's `tickets` array:
`{tierId, quantity, attendeeName, attendeeEmail}` (JS numbers modelled as
`ℤ`; the validator enforces the integer bounds). -/
structure LineItem where
  tierId : ℤ
  quantity : ℤ
  attendeeName : String
  attendeeEmail : String
deriving DecidableEq, Repr

/-- The order-creation request body (billing fields the core persists). -/
structure OrderReq where
  eventId : ℤ
  tickets : List LineItem
  billingEmail : String
  billingName : String
deriving DecidableEq, Repr

/-- The values the order-creation transaction draws from outside the
database: `Date.now()`, the generated order number, auto-increment ids and
the uuid-based ticket codes. -/
structure Fresh where
  now : ℤ
  orderId : Nat
  orderNumber : String
  ticketIdStart : Nat
  codeOf : Nat → String

/-- Error outcomes of `router.post('/')` in `src/routes/tickets.js`; each
constructor carries the data its JSON message interpolates. -/
inductive CreateErr
  | eventNotFound
  | tierNotFound (tierId : ℤ)
  | notEnoughTickets (tierName : String) (available : ℤ)
  | salesNotStarted (tierName : String)
  | salesEnded (tierName : String)
  | storeFailure
deriving DecidableEq, Repr

/-- HTTP status of each error response of the create-order route. -/
def CreateErr.httpStatus : CreateErr → Nat
  | .eventNotFound => 404
  | .storeFailure => 500
  | _ => 400

/-- Successful response body of `router.post('/')`: `{orderId, orderNumber,
totalAmount}` (the checkout url is produced by Stripe, outside the store). -/
structure CreateOk where
  orderId : Nat
  orderNumber : String
  totalAmount : ℤ
deriving DecidableEq, Repr

/-- `SELECT * FROM ticket_tiers WHERE id = ? AND event_id = ? AND
is_active = TRUE FOR UPDATE` — the locking read of the validation loop. -/
def findTier (db : DB) (eventId tierId : ℤ) : Option TicketTier :=
  db.ticket_tiers.find? fun tt =>
    (tt.id : ℤ) = tierId && (tt.event_id : ℤ) = eventId && tt.is_active

/-- The per-tier bookkeeping the route accumulates in `ticketTierUpdates`:
one entry per line item, in request order. -/
structure TierUpdate where
  tierId : Nat
  quantity : ℤ
  price : ℤ
  name : String
deriving DecidableEq, Repr

/-- The validation loop of `router.post('/')` (`for (const ticket of
tickets)`): per line item, lock and load the tier, check that it exists, is
active and belongs to the event, check
`tier.sold_quantity + ticket.quantity > tier.quantity`, check the sales
window against `now`, and accumulate `totalAmount` and the update list.
`n` counts `execute` calls for fault injection; no mutation happens here —
the `UPDATE` statements run only after the loop completes. -/
def validateItems (db : DB) (eventId : ℤ) (now : ℤ) (fault : Option Nat) :
    List LineItem → Nat → ℤ → List TierUpdate →
    Except CreateErr (ℤ × List TierUpdate × Nat)
  | [], n, total, ups => .ok (total, ups.reverse, n)
  | item :: rest, n, total, ups =>
    if fault = some n then .error .storeFailure
    else
      match findTier db eventId item.tierId with
      | none => .error (.tierNotFound item.tierId)
      | some tier =>
        if tier.sold_quantity + item.quantity > tier.quantity then
          .error (.notEnoughTickets tier.name (tier.quantity - tier.sold_quantity))
        else if (match tier.sales_start_date with
                 | some s => decide (s > now)
                 | none => false) then
          .error (.salesNotStarted tier.name)
        else if (match tier.sales_end_date with
                 | some e => decide (e < now)
                 | none => false) then
          .error (.salesEnded tier.name)
        else
          validateItems db eventId now fault rest (n + 1)
            (total + tier.price * item.quantity)
            ({ tierId := tier.id, quantity := item.quantity,
               price := tier.price, name := tier.name } :: ups)

/-- The sequence of `UPDATE ticket_tiers SET sold_quantity =
sold_quantity + ? WHERE id = ?` statements, one per collected update entry
(so a tier listed in two line items is incremented twice). -/
def applySoldUpdates (tiers : List TicketTier) (ups : List TierUpdate) :
    List TicketTier :=
  ups.foldl
    (fun ts u =>
      ts.map fun tt =>
        if tt.id = u.tierId then
          { tt with sold_quantity := tt.sold_quantity + u.quantity }
        else tt)
    tiers

/-- The ticket-insertion loops: for each line item, `ticket.quantity` rows
with sequential auto-increment ids and uuid-based codes
(`for (let i = 0; i < ticket.quantity; i++)` — a non-positive quantity
inserts nothing). -/
def ticketRows (orderId : Nat) (codeOf : Nat → String) :
    List LineItem → Nat → List Ticket
  | [], _ => []
  | it :: rest, idNext =>
    ((List.range it.quantity.toNat).map fun i =>
      { id := idNext + i
        order_id := orderId
        ticket_tier_id := it.tierId.toNat
        ticket_code := codeOf (idNext + i)
        attendee_name := it.attendeeName
        attendee_email := it.attendeeEmail
        status := .active
        qr_code := none })
      ++ ticketRows orderId codeOf rest (idNext + it.quantity.toNat)

/-- Whether the injected fault index falls among the next ops. -/
def hitsFault (fault : Option Nat) (lo hi : Nat) : Bool :=
  match fault with
  | none => false
  | some m => lo ≤ m && m < hi

/-- The `orders` row inserted by `INSERT INTO orders (...)` — the status
column is absent from the INSERT and defaults to `pending`. -/
def newOrderRow (req : OrderReq) (uid : Nat) (fr : Fresh) (total : ℤ) :
    Order :=
  { id := fr.orderId
    user_id := uid
    event_id := req.eventId.toNat
    order_number := fr.orderNumber
    total_amount := total
    status := .pending
    stripe_payment_intent_id := none
    stripe_session_id := none
    billing_email := req.billingEmail
    billing_name := req.billingName }

/-- `router.post('/')` of `src/routes/tickets.js` (create order): one
transaction that (1) loads the published event, (2) runs the validation
loop, (3) inserts the `orders` row (status defaults to `pending`),
(4) applies the `sold_quantity` increments, (5) inserts the ticket rows,
then commits.  Every failure path calls `rollback` and responds without
publishing any write, which the embedding renders by returning the
pre-state `db`.  `fault` injects a store failure at the given `execute`
call (op 0 is the event SELECT; the mutation phase is collapsed to its op
count since no write escapes before commit). -/
def createOrder (db : DB) (req : OrderReq) (userId : Nat) (fr : Fresh)
    (fault : Option Nat) : DB × Except CreateErr CreateOk :=
  if fault = some 0 then (db, .error .storeFailure)
  else
    match db.events.find? (fun e =>
        (e.id : ℤ) = req.eventId && e.status = .published) with
    | none => (db, .error .eventNotFound)
    | some _ =>
      match validateItems db req.eventId fr.now fault req.tickets 1 0 [] with
      | .error e => (db, .error e)
      | .ok (total, ups, n) =>
        let numTickets := (req.tickets.map fun it => it.quantity.toNat).sum
        if hitsFault fault n (n + 1 + ups.length + numTickets) then
          (db, .error .storeFailure)
        else
          ({ db with
              orders := db.orders ++ [newOrderRow req userId fr total]
              ticket_tiers := applySoldUpdates db.ticket_tiers ups
              tickets := db.tickets ++
                ticketRows fr.orderId fr.codeOf req.tickets fr.ticketIdStart }
           , .ok { orderId := fr.orderId, orderNumber := fr.orderNumber,
                   totalAmount := total })

/-- Number of `tickets` rows of order `orderId` that reference tier
`tierId`. -/
def orderTicketCount (db : DB) (orderId tierId : Nat) : Nat :=
  (db.tickets.filter fun t =>
    t.order_id = orderId && t.ticket_tier_id = tierId).length

/-- The shared compensation statement
`UPDATE ticket_tiers tt JOIN tickets t ON tt.id = t.ticket_tier_id
SET tt.sold_quantity = tt.sold_quantity - 1 WHERE t.order_id = ?`
(used verbatim by the cancel route, `handlePaymentFailure`,
`handlePaymentCanceled` and the `payment_failed` branch of
`processPaymentWebhook`).  Under MySQL's multiple-table UPDATE semantics
each matching `ticket_tiers` row is updated once, even when it joins
several `tickets` rows of the order, so every tier holding at least one of
the order's tickets is decremented by exactly 1. -/
def releaseTickets (db : DB) (orderId : Nat) : DB :=
  { db with
    ticket_tiers := db.ticket_tiers.map fun tt =>
      if 0 < orderTicketCount db orderId tt.id then
        { tt with sold_quantity := tt.sold_quantity - 1 }
      else tt }

/-- `UPDATE orders SET status = ? WHERE id = ?` (no source-state guard). -/
def setOrderStatus (orders : List Order) (orderId : Nat) (s : OrderStatus) :
    List Order :=
  orders.map fun o => if o.id = orderId then { o with status := s } else o

/-- Outcomes of `router.post('/:id/cancel')`. -/
inductive CancelResult
  | notFound
  | notPending
  | cancelled
deriving DecidableEq, Repr

/-- HTTP status of each cancel-route response. -/
def CancelResult.httpStatus : CancelResult → Nat
  | .notFound => 404
  | .notPending => 400
  | .cancelled => 200

/-- `router.post('/:id/cancel')` of `src/routes/tickets.js`: in one
transaction, load the order by id and owner (404 if absent), reject with
400 unless `status === 'pending'`, otherwise set the status to `cancelled`
and run the compensation UPDATE, then commit. -/
def cancelOrder (db : DB) (userId orderId : Nat) : DB × CancelResult :=
  match db.orders.find? (fun o => o.id = orderId && o.user_id = userId) with
  | none => (db, .notFound)
  | some o =>
    if o.status ≠ .pending then (db, .notPending)
    else
      (releaseTickets
        { db with orders := setOrderStatus db.orders orderId .cancelled }
        orderId, .cancelled)

/-- The slice of a Stripe `payment_intent` object the handlers read:
`paymentIntent.id` and `paymentIntent.metadata.orderId`. -/
structure PaymentIntent where
  id : String
  orderId : Nat
deriving DecidableEq, Repr

/-- The slice of a Stripe checkout-session object `handleCheckoutCompleted`
reads: `session.id` and `session.metadata.orderId`. -/
structure SessionObj where
  id : String
  orderId : Nat
deriving DecidableEq, Repr

/-- A message published to RabbitMQ by the settlement code (the queue name
and the payload fields the consumers read). -/
inductive Msg
  | orderConfirmation (sendTo : String) (orderId : Nat)
  | ticketGeneration (orderId : Nat) (ticketIds : List Nat)
deriving DecidableEq, Repr

/-- `handlePaymentSuccess` of `src/config/stripe.js`: unconditionally
`UPDATE orders SET status = "paid", stripe_payment_intent_id = ? WHERE
id = ?` (no source-state guard), then re-load the order joined with its
user and event; when the join succeeds, publish an `order_confirmation`
email message and a `ticket_generation` message — on every invocation. -/
def handlePaymentSuccess (db : DB) (pi : PaymentIntent) : DB × List Msg :=
  let db1 : DB :=
    { db with
      orders := db.orders.map fun o =>
        if o.id = pi.orderId then
          { o with status := .paid, stripe_payment_intent_id := some pi.id }
        else o }
  match (db1.orders.find? fun o => o.id = pi.orderId).bind (fun o =>
      (db1.users.find? fun u => u.id = o.user_id).bind (fun u =>
        (db1.events.find? fun e => e.id = o.event_id).map fun _ => (o, u))) with
  | none => (db1, [])
  | some (_, u) =>
    let tks := db1.tickets.filter fun t => t.order_id = pi.orderId
    (db1, [.orderConfirmation u.email pi.orderId,
           .ticketGeneration pi.orderId (tks.map fun t => t.id)])

/-- `handlePaymentFailure` of `src/config/stripe.js`: unconditionally
`UPDATE orders SET status = "cancelled" WHERE id = ?` (no source-state
guard), then run the compensation UPDATE. -/
def handlePaymentFailure (db : DB) (pi : PaymentIntent) : DB :=
  releaseTickets
    { db with orders := setOrderStatus db.orders pi.orderId .cancelled }
    pi.orderId

/-- `handlePaymentCanceled` of `src/config/stripe.js` — same body as
`handlePaymentFailure`. -/
def handlePaymentCanceled (db : DB) (pi : PaymentIntent) : DB :=
  handlePaymentFailure db pi

/-- `handleCheckoutCompleted` of `src/config/stripe.js`: record the Stripe
session reference on the order, no state transition. -/
def handleCheckoutCompleted (db : DB) (s : SessionObj) : DB :=
  { db with
    orders := db.orders.map fun o =>
      if o.id = s.orderId then { o with stripe_session_id := some s.id }
      else o }

/-- The event envelope dispatched by `handleWebhook`, after Stripe's
signature check has classified the raw body. -/
inductive StripeEvent
  | paymentIntentSucceeded (pi : PaymentIntent)
  | paymentIntentFailed (pi : PaymentIntent)
  | checkoutSessionCompleted (s : SessionObj)
  | paymentIntentCanceled (pi : PaymentIntent)
  | unhandled
deriving DecidableEq, Repr

/-- `handleWebhook` of `src/config/stripe.js`: `stripe.webhooks
.constructEvent` either verifies the signature or throws — on a
verification failure the route answers `res.status(400)` and touches no
state; on a verified event it dispatches on `event.type` and answers 200
(`res.json({received: true})`).  `sigValid` stands for the outcome of the
signature check.  Result: (database, HTTP status, published messages). -/
def handleWebhook (db : DB) (sigValid : Bool) (ev : StripeEvent) :
    DB × Nat × List Msg :=
  if !sigValid then (db, 400, [])
  else
    match ev with
    | .paymentIntentSucceeded pi =>
      let r := handlePaymentSuccess db pi
      (r.1, 200, r.2)
    | .paymentIntentFailed pi => (handlePaymentFailure db pi, 200, [])
    | .checkoutSessionCompleted s => (handleCheckoutCompleted db s, 200, [])
    | .paymentIntentCanceled pi => (handlePaymentCanceled db pi, 200, [])
    | .unhandled => (db, 200, [])

/-- A message consumed from the `payment_webhooks` queue by
`processPaymentWebhook` (the fields its branches read). -/
inductive QueueMsg
  | paymentSuccess (orderId : Nat) (email : String)
  | paymentFailed (orderId : Nat)
  | refundProcessed (orderId : Nat)
  | unknown
deriving DecidableEq, Repr

/-- `processPaymentWebhook` of `src/services/messageProcessors.js`:
`payment_success` sets the order `paid` and publishes an
`order_confirmation` message; `payment_failed` sets it `cancelled` and runs
the compensation UPDATE; `refund_processed` sets it `refunded`.  None of
the branches guards on the current order status. -/
def processPaymentWebhook (db : DB) (m : QueueMsg) : DB × List Msg :=
  match m with
  | .paymentSuccess oid email =>
    ({ db with orders := setOrderStatus db.orders oid .paid },
     [.orderConfirmation email oid])
  | .paymentFailed oid =>
    (releaseTickets
      { db with orders := setOrderStatus db.orders oid .cancelled } oid, [])
  | .refundProcessed oid =>
    ({ db with orders := setOrderStatus db.orders oid .refunded }, [])
  | .unknown => (db, [])

/-- The nullable body fields of `router.put('/tiers/:id')`; the UPDATE uses
`COALESCE(?, column)`, so an absent field keeps the stored value. -/
structure TierPatch where
  name : Option String
  description : Option String
  price : Option ℤ
  quantity : Option ℤ
  salesStartDate : Option ℤ
  salesEndDate : Option ℤ
  isActive : Option Bool
deriving DecidableEq, Repr

/-- A patch with every field absent. -/
def TierPatch.empty : TierPatch :=
  { name := none, description := none, price := none, quantity := none,
    salesStartDate := none, salesEndDate := none, isActive := none }

/-- `UPDATE ticket_tiers SET name = COALESCE(?, name), ... WHERE id = ?`
applied to one row. -/
def applyTierPatch (tt : TicketTier) (p : TierPatch) : TicketTier :=
  { tt with
    name := p.name.getD tt.name
    description := p.description.getD tt.description
    price := p.price.getD tt.price
    quantity := p.quantity.getD tt.quantity
    sales_start_date :=
      match p.salesStartDate with
      | some v => some v
      | none => tt.sales_start_date
    sales_end_date :=
      match p.salesEndDate with
      | some v => some v
      | none => tt.sales_end_date
    is_active := p.isActive.getD tt.is_active }

/-- `SELECT tt.*, e.organizer_id FROM ticket_tiers tt JOIN events e ON
tt.event_id = e.id WHERE tt.id = ?`. -/
def tierJoin (db : DB) (tierId : Nat) : Option (TicketTier × EventRow) :=
  (db.ticket_tiers.find? fun tt => tt.id = tierId).bind fun tt =>
    (db.events.find? fun e => e.id = tt.event_id).map fun e => (tt, e)

/-- Outcomes of the tier update/delete routes.  `roleRejected` is the 403
of the `requireRole(['organizer','admin'])` middleware, `accessDenied` the
403 of the ownership check, `soldTier` the 400 guard on
`sold_quantity > 0`. -/
inductive TierEditResult
  | roleRejected
  | notFound
  | accessDenied
  | soldTier
  | edited
deriving DecidableEq, Repr

/-- HTTP status of each tier update/delete response. -/
def TierEditResult.httpStatus : TierEditResult → Nat
  | .roleRejected => 403
  | .notFound => 404
  | .accessDenied => 403
  | .soldTier => 400
  | .edited => 200

/-- `router.put('/tiers/:id')` of `src/routes/tickets.js`: role middleware,
tier/event join (404), ownership check
(`tiers[0].organizer_id !== req.user.id && req.user.role !== 'admin'` →
403), the `sold_quantity > 0` guard (400, `Cannot modify tier with sold
tickets`), then the COALESCE update. -/
def updateTier (db : DB) (uid : Nat) (role : Role) (tierId : Nat)
    (p : TierPatch) : DB × TierEditResult :=
  if !(role = .organizer || role = .admin) then (db, .roleRejected)
  else
    match tierJoin db tierId with
    | none => (db, .notFound)
    | some (tt, ev) =>
      if ev.organizer_id ≠ uid && role ≠ .admin then (db, .accessDenied)
      else if tt.sold_quantity > 0 then (db, .soldTier)
      else
        ({ db with
            ticket_tiers := db.ticket_tiers.map fun t =>
              if t.id = tierId then applyTierPatch t p else t }, .edited)

/-- `router.delete('/tiers/:id')` of `src/routes/tickets.js`: same guards
as the update route (the 400 message is `Cannot delete tier with sold
tickets`), then `DELETE FROM ticket_tiers WHERE id = ?`. -/
def deleteTier (db : DB) (uid : Nat) (role : Role) (tierId : Nat) :
    DB × TierEditResult :=
  if !(role = .organizer || role = .admin) then (db, .roleRejected)
  else
    match tierJoin db tierId with
    | none => (db, .notFound)
    | some (tt, ev) =>
      if ev.organizer_id ≠ uid && role ≠ .admin then (db, .accessDenied)
      else if tt.sold_quantity > 0 then (db, .soldTier)
      else
        ({ db with
            ticket_tiers := db.ticket_tiers.filter fun t => t.id ≠ tierId },
         .edited)

/-- The external library predicates of `validateOrderCreation`
(express-validator's `isEmail` after `normalizeEmail`) — not code of this
repository, passed in abstractly. -/
structure Validators where
  emailOk : String → Bool

/-- The character class of the validator regex `/^[a-zA-Z\s'-]+$/`
(`Char.ofNat 39` is the apostrophe). -/
def nameCharOk (c : Char) : Bool :=
  c.isAlpha || c.isWhitespace || c = '-' || c = Char.ofNat 39

/-- express-validator's `.trim()`: the characters of the value with
leading and trailing whitespace removed. -/
def trimmedChars (s : String) : List Char :=
  ((s.toList.dropWhile Char.isWhitespace).reverse.dropWhile
    Char.isWhitespace).reverse

/-- The `attendeeName`/`billingName` chain: `.trim()`,
`isLength({min: 2, max: 100})`, and for attendee names the
`/^[a-zA-Z\s'-]+$/` match. -/
def nameLenOk (s : String) : Bool :=
  2 ≤ (trimmedChars s).length && (trimmedChars s).length ≤ 100

/-- The total the custom `tickets` validator computes: `SELECT id, price
FROM ticket_tiers WHERE id IN (...)` — lookup by id only, neither the
event nor `is_active` filters, and a tier id not found contributes 0. -/
def middlewareTotal (db : DB) (items : List LineItem) : ℤ :=
  (items.map fun it =>
    match db.ticket_tiers.find? (fun tt => (tt.id : ℤ) = it.tierId) with
    | some tt => tt.price * it.quantity
    | none => 0).sum

/-- `validateOrderCreation` of `src/middleware/validation.js`: `eventId`
a positive integer; `tickets` an array of 1 to 20 items; per item a
positive `tierId`, `quantity` an integer in `[1, 10]`, attendee name
bounds and character class, attendee email; billing email and name; and
the custom rule rejecting `totalAmount > 10000` computed from current
prices.  `handleValidationErrors` turns any failure into a 400 before the
route handler runs. -/
def validateOrderCreation (v : Validators) (db : DB) (req : OrderReq) :
    Bool :=
  (1 ≤ req.eventId) &&
  (1 ≤ req.tickets.length && req.tickets.length ≤ 20) &&
  (req.tickets.all fun it =>
    (1 ≤ it.tierId) &&
    (1 ≤ it.quantity && it.quantity ≤ 10) &&
    nameLenOk it.attendeeName &&
    (trimmedChars it.attendeeName).all nameCharOk &&
    v.emailOk it.attendeeEmail) &&
  v.emailOk req.billingEmail &&
  nameLenOk req.billingName &&
  !(middlewareTotal db req.tickets > 10000)

/-- The `POST /api/orders` pipeline: `validateOrderCreation` runs before
the route handler; a validation failure answers 400 without opening the
transaction (`none`), otherwise the create-order transaction runs. -/
def postOrder (v : Validators) (db : DB) (req : OrderReq) (userId : Nat)
    (fr : Fresh) (fault : Option Nat) :
    DB × Option (Except CreateErr CreateOk) :=
  if validateOrderCreation v db req then
    let r := createOrder db req userId fr fault
    (r.1, some r.2)
  else (db, none)

/-! ### Reference definitions taken from the specification's wording

These are stated from the spec text (not from the code) and serve as the
comparison side of the refinement-style claims C6 and C7. -/

/-- Spec §4.1 step 3, per-tier validation in the specified order:
(1) the tier belongs to the given event and is active;
(2) `sold_quantity + requestedQuantity <= quantity`;
(3) the current time is within `[sales_start_date, sales_end_date]` when
those are set.  A capacity violation names the offending tier and its
remaining capacity `quantity - sold_quantity`. -/
def specTierCheck (db : DB) (eventId now : ℤ) (it : LineItem) :
    Option CreateErr :=
  match findTier db eventId it.tierId with
  | none => some (.tierNotFound it.tierId)
  | some tier =>
    if ¬ (tier.sold_quantity + it.quantity ≤ tier.quantity) then
      some (.notEnoughTickets tier.name (tier.quantity - tier.sold_quantity))
    else if (match tier.sales_start_date with
             | some s => decide (¬ (s ≤ now))
             | none => false) then
      some (.salesNotStarted tier.name)
    else if (match tier.sales_end_date with
             | some e => decide (¬ (now ≤ e))
             | none => false) then
      some (.salesEnded tier.name)
    else none

/-- Spec §4.1 step 3: the first failing check of the first failing line
item, in request order. -/
def specFirstTierError (db : DB) (eventId now : ℤ) :
    List LineItem → Option CreateErr
  | [] => none
  | it :: rest =>
    match specTierCheck db eventId now it with
    | some e => some e
    | none => specFirstTierError db eventId now rest

/-- The price read under the row lock for a line item's tier (0 is never
used: on a successful reservation every tier was found). -/
def lockedPrice (db : DB) (eventId tierId : ℤ) : ℤ :=
  match findTier db eventId tierId with
  | some tt => tt.price
  | none => 0

/-- Spec §4.1 step 4: `Σ (tier.price × requestedQuantity)` over the
requested line items, at the prices read under lock. -/
def specOrderTotal (db : DB) (eventId : ℤ) (items : List LineItem) : ℤ :=
  (items.map fun it => lockedPrice db eventId it.tierId * it.quantity).sum

/-- Every order persisted before an operation still exists afterwards with
the same id and the same `total_amount`. -/
def totalsPreserved (db db2 : DB) : Prop :=
  ∀ o ∈ db.orders, ∃ o2, o2 ∈ db2.orders ∧ o2.id = o.id ∧
    o2.total_amount = o.total_amount

/-- The request bounds claim C10 states: 1 to 20 line items, each quantity
in `[1, 10]`, and a total at current prices of at most 10000. -/
def reqBounds (db : DB) (req : OrderReq) : Prop :=
  1 ≤ req.tickets.length ∧ req.tickets.length ≤ 20 ∧
  (∀ it ∈ req.tickets, 1 ≤ it.quantity ∧ it.quantity ≤ 10) ∧
  middlewareTotal db req.tickets ≤ 10000

/-! ### Helper lemmas -/

/-- Every failure path of the create-order transaction rolls back: the
published database is the pre-state. -/
lemma createOrder_error_rollback {db db2 : DB} {req : OrderReq} {uid : Nat}
    {fr : Fresh} {fault : Option Nat} {e : CreateErr}
    (h : createOrder db req uid fr fault = (db2, .error e)) : db2 = db := by
  unfold createOrder at h
  split at h
  · exact (Prod.mk.injEq _ _ _ _ ▸ h).1.symm
  · split at h
    · exact (Prod.mk.injEq _ _ _ _ ▸ h).1.symm
    · split at h
      · exact (Prod.mk.injEq _ _ _ _ ▸ h).1.symm
      · dsimp only [] at h
        split at h
        · exact (Prod.mk.injEq _ _ _ _ ▸ h).1.symm
        · exact absurd (Prod.mk.injEq _ _ _ _ ▸ h).2 (by simp)

/-- With no injected fault, the validation loop fails exactly on the first
failing per-tier check, in the spec's order. -/
lemma validateItems_error_iff (db : DB) (eventId now : ℤ) :
    ∀ (items : List LineItem) (n : Nat) (total : ℤ)
      (ups : List TierUpdate) (e : CreateErr),
      (validateItems db eventId now none items n total ups = .error e ↔
        specFirstTierError db eventId now items = some e) := by
  intro items
  induction items with
  | nil =>
    intro n total ups e
    simp [validateItems, specFirstTierError]
  | cons it rest ih =>
    intro n total ups e
    rw [validateItems, specFirstTierError, specTierCheck]
    cases hft : findTier db eventId it.tierId with
    | none => simp
    | some tier =>
      by_cases hcap : tier.sold_quantity + it.quantity > tier.quantity
      · have hcap2 : ¬ (tier.sold_quantity + it.quantity ≤ tier.quantity) := by
          omega
        simp [hcap, hcap2]
      · have hcap2 : tier.sold_quantity + it.quantity ≤ tier.quantity := by
          omega
        simp only [hcap, if_neg, if_false, hcap2, not_true_eq_false,
          Bool.false_eq_true, decide_eq_true_eq, if_pos, not_le]
        cases hs : tier.sales_start_date with
        | some s =>
          by_cases hnow : s ≤ now
          · have h1 : ¬ (s > now) := by omega
            have h2 : ¬ ¬ (s ≤ now) := by omega
            simp only [h1, decide_eq_true_eq, if_neg, h2, decide_eq_false_iff_not,
              if_false, decide_False, Bool.false_eq_true]
            cases he : tier.sales_end_date with
            | some e2 =>
              by_cases hend : now ≤ e2
              · have h3 : ¬ (e2 < now) := by omega
                have h4 : ¬ ¬ (now ≤ e2) := by omega
                simp only [h3, h4, decide_eq_true_eq, if_neg, if_false,
                  decide_False, Bool.false_eq_true]
                exact ih (n + 1) _ _ e
              · have h3 : e2 < now := by omega
                have h4 : ¬ (now ≤ e2) := hend
                simp [h3, h4]
            | none =>
              simp only [Bool.false_eq_true, if_neg, if_false]
              exact ih (n + 1) _ _ e
          · have h1 : s > now := by omega
            simp [h1, hnow]
        | none =>
          simp only [Bool.false_eq_true, if_neg, if_false]
          cases he : tier.sales_end_date with
          | some e2 =>
            by_cases hend : now ≤ e2
            · have h3 : ¬ (e2 < now) := by omega
              have h4 : ¬ ¬ (now ≤ e2) := by omega
              simp only [h3, h4, decide_eq_true_eq, if_neg, if_false,
                decide_False, Bool.false_eq_true]
              exact ih (n + 1) _ _ e
            · have h3 : e2 < now := by omega
              have h4 : ¬ (now ≤ e2) := hend
              simp [h3, h4]
          | none =>
            simp only [Bool.false_eq_true, if_neg, if_false]
            exact ih (n + 1) _ _ e

/-- Every per-tier validation failure is a client error (HTTP 400). -/
lemma specTierCheck_httpStatus (db : DB) (eventId now : ℤ) (it : LineItem)
    (e : CreateErr) (h : specTierCheck db eventId now it = some e) :
    e.httpStatus = 400 := by
  unfold specTierCheck at h
  split at h
  · cases h; rfl
  · split at h
    · cases h; rfl
    · split at h
      · cases h; rfl
      · split at h
        · cases h; rfl
        · cases h

/-- The first failing per-tier check is a client error (HTTP 400). -/
lemma specFirstTierError_httpStatus (db : DB) (eventId now : ℤ) :
    ∀ (items : List LineItem) (e : CreateErr),
      specFirstTierError db eventId now items = some e → e.httpStatus = 400 := by
  intro items
  induction items with
  | nil => intro e h; cases h
  | cons it rest ih =>
    intro e h
    rw [specFirstTierError] at h
    cases hc : specTierCheck db eventId now it with
    | none => rw [hc] at h; exact ih e h
    | some e2 =>
      rw [hc] at h
      cases h
      exact specTierCheck_httpStatus db eventId now it _ hc

/-- A successful validation loop accumulates exactly the spec's total:
the sum over the line items of the locked price times the quantity. -/
lemma validateItems_ok_total (db : DB) (eventId now : ℤ)
    (fault : Option Nat) :
    ∀ (items : List LineItem) (n : Nat) (total : ℤ)
      (ups : List TierUpdate) (T : ℤ) (U : List TierUpdate) (m : Nat),
      validateItems db eventId now fault items n total ups = .ok (T, U, m) →
      T = total + specOrderTotal db eventId items := by
  intro items
  induction items with
  | nil =>
    intro n total ups T U m h
    rw [validateItems] at h
    cases h
    simp [specOrderTotal]
  | cons it rest ih =>
    intro n total ups T U m h
    rw [validateItems] at h
    by_cases hf : fault = some n
    · rw [if_pos hf] at h; cases h
    · rw [if_neg hf] at h
      cases hft : findTier db eventId it.tierId with
      | none => rw [hft] at h; cases h
      | some tier =>
        rw [hft] at h
        dsimp only [] at h
        by_cases hcap : tier.sold_quantity + it.quantity > tier.quantity
        · rw [if_pos hcap] at h; cases h
        · rw [if_neg hcap] at h
          by_cases hs : (match tier.sales_start_date with
                         | some s => decide (s > now)
                         | none => false) = true
          · rw [if_pos hs] at h; cases h
          · rw [if_neg hs] at h
            by_cases he2 : (match tier.sales_end_date with
                            | some e => decide (e < now)
                            | none => false) = true
            · rw [if_pos he2] at h; cases h
            · rw [if_neg he2] at h
              rw [ih _ _ _ _ _ _ h]
              simp only [specOrderTotal, List.map_cons, List.sum_cons,
                lockedPrice, hft]
              ring

/-- `totalsPreserved` holds when the operation leaves the `orders` table
untouched. -/
lemma totalsPreserved_of_orders_eq {db db2 : DB}
    (h : db2.orders = db.orders) : totalsPreserved db db2 := by
  intro o ho
  exact ⟨o, h ▸ ho, rfl, rfl⟩

/-- `totalsPreserved` holds when the operation rewrites the `orders` table
row-by-row, keeping each row's id and total. -/
lemma totalsPreserved_of_map {db db2 : DB} {f : Order → Order}
    (h : db2.orders = db.orders.map f)
    (hid : ∀ o, (f o).id = o.id)
    (ht : ∀ o, (f o).total_amount = o.total_amount) :
    totalsPreserved db db2 := by
  intro o ho
  exact ⟨f o, h ▸ List.mem_map_of_mem f ho, hid o, ht o⟩

/-- `setOrderStatus` keeps every row's id and total. -/
lemma totalsPreserved_setOrderStatus (db : DB) (db2 : DB) (oid : Nat)
    (s : OrderStatus) (h : db2.orders = setOrderStatus db.orders oid s) :
    totalsPreserved db db2 := by
  apply totalsPreserved_of_map (f := fun o =>
    if o.id = oid then { o with status := s } else o) h
  · intro o; by_cases ho : o.id = oid <;> simp [ho]
  · intro o; by_cases ho : o.id = oid <;> simp [ho]

/-- `handlePaymentSuccess` keeps every order's id and total. -/
lemma totalsPreserved_handlePaymentSuccess (db : DB) (pi : PaymentIntent) :
    totalsPreserved db (handlePaymentSuccess db pi).1 := by
  have hbase : ∀ (r : DB × List Msg),
      r.1.orders = db.orders.map (fun o =>
        if o.id = pi.orderId then
          { o with status := .paid, stripe_payment_intent_id := some pi.id }
        else o) →
      totalsPreserved db r.1 := by
    intro r h
    apply totalsPreserved_of_map h
    · intro o; by_cases ho : o.id = pi.orderId <;> simp [ho]
    · intro o; by_cases ho : o.id = pi.orderId <;> simp [ho]
  apply hbase
  simp only [handlePaymentSuccess]
  split <;> rfl

/-- `handlePaymentFailure` keeps every order's id and total
(`releaseTickets` touches only `ticket_tiers`). -/
lemma totalsPreserved_handlePaymentFailure (db : DB) (pi : PaymentIntent) :
    totalsPreserved db (handlePaymentFailure db pi) := by
  apply totalsPreserved_setOrderStatus db _ pi.orderId .cancelled
  rfl

/-- `handleCheckoutCompleted` keeps every order's id and total. -/
lemma totalsPreserved_handleCheckoutCompleted (db : DB) (s : SessionObj) :
    totalsPreserved db (handleCheckoutCompleted db s) := by
  apply totalsPreserved_of_map (f := fun o =>
    if o.id = s.orderId then { o with stripe_session_id := some s.id } else o)
    rfl
  · intro o; by_cases ho : o.id = s.orderId <;> simp [ho]
  · intro o; by_cases ho : o.id = s.orderId <;> simp [ho]

/-- The tier update route never touches the `orders` table. -/
lemma totalsPreserved_updateTier (db : DB) (uid : Nat) (role : Role)
    (tierId : Nat) (p : TierPatch) :
    totalsPreserved db (updateTier db uid role tierId p).1 := by
  apply totalsPreserved_of_orders_eq
  unfold updateTier
  split
  · rfl
  · split
    · rfl
    · split
      · rfl
      · split <;> rfl

/-- The tier delete route never touches the `orders` table. -/
lemma totalsPreserved_deleteTier (db : DB) (uid : Nat) (role : Role)
    (tierId : Nat) :
    totalsPreserved db (deleteTier db uid role tierId).1 := by
  apply totalsPreserved_of_orders_eq
  unfold deleteTier
  split
  · rfl
  · split
    · rfl
    · split
      · rfl
      · split <;> rfl

/-- The cancel route keeps every order's id and total (it only flips the
status and decrements tier counters). -/
lemma totalsPreserved_cancelOrder (db : DB) (uid oid : Nat) :
    totalsPreserved db (cancelOrder db uid oid).1 := by
  unfold cancelOrder
  split
  · exact totalsPreserved_of_orders_eq rfl
  · split
    · exact totalsPreserved_of_orders_eq rfl
    · exact totalsPreserved_setOrderStatus db _ oid .cancelled rfl

/-- The webhook dispatcher keeps every order's id and total, whatever the
event and signature outcome. -/
lemma totalsPreserved_handleWebhook (db : DB) (sigValid : Bool)
    (ev : StripeEvent) :
    totalsPreserved db (handleWebhook db sigValid ev).1 := by
  unfold handleWebhook
  cases sigValid with
  | false => exact totalsPreserved_of_orders_eq rfl
  | true =>
    cases ev with
    | paymentIntentSucceeded pi =>
      exact totalsPreserved_handlePaymentSuccess db pi
    | paymentIntentFailed pi =>
      exact totalsPreserved_handlePaymentFailure db pi
    | checkoutSessionCompleted s =>
      exact totalsPreserved_handleCheckoutCompleted db s
    | paymentIntentCanceled pi =>
      exact totalsPreserved_handlePaymentFailure db pi
    | unhandled => exact totalsPreserved_of_orders_eq rfl

/-- The queue-side payment processor keeps every order's id and total. -/
lemma totalsPreserved_processPaymentWebhook (db : DB) (m : QueueMsg) :
    totalsPreserved db (processPaymentWebhook db m).1 := by
  cases m with
  | paymentSuccess oid email =>
    exact totalsPreserved_setOrderStatus db _ oid .paid rfl
  | paymentFailed oid =>
    exact totalsPreserved_setOrderStatus db _ oid .cancelled rfl
  | refundProcessed oid =>
    exact totalsPreserved_setOrderStatus db _ oid .refunded rfl
  | unknown => exact totalsPreserved_of_orders_eq rfl

/-- Passing `validateOrderCreation` implies the C10 bounds. -/
lemma validateOrderCreation_bounds (v : Validators) (db : DB)
    (req : OrderReq) (h : validateOrderCreation v db req = true) :
    reqBounds db req := by
  unfold validateOrderCreation at h
  simp only [Bool.and_eq_true, decide_eq_true_eq, List.all_eq_true,
    Bool.not_eq_true', decide_eq_false_iff_not] at h
  obtain ⟨⟨⟨⟨⟨hev, hlen⟩, hitems⟩, hbe⟩, hbn⟩, htot⟩ := h
  refine ⟨hlen.1, hlen.2, ?_, by omega⟩
  intro it hit
  obtain ⟨⟨⟨⟨htier, hq⟩, hn⟩, ha⟩, he⟩ := hitems it hit
  exact hq

/-! ### Concrete sample states -/

/-- Validators that accept every email (the external library predicate is
irrelevant to the properties checked on concrete runs). -/
def allEmailsOk : Validators := ⟨fun _ => true⟩

/-- Concrete fresh values for concrete transaction runs. -/
def wfr : Fresh :=
  { now := 100, orderId := 1, orderNumber := "ORD-1", ticketIdStart := 1,
    codeOf := fun n => "TKT-" ++ toString n }

/-- A sample published event. -/
def wEvent : EventRow :=
  { id := 1, organizer_id := 2, title := "Conf", status := .published }

/-- An active 5-seat tier with 4 seats sold. -/
def wTier : TicketTier :=
  { id := 1, event_id := 1, name := "GA", description := "", price := 10,
    quantity := 5, sold_quantity := 4, sales_start_date := none,
    sales_end_date := none, is_active := true }

/-- One published event with one active 5-seat tier, 4 seats sold. -/
def wdb : DB :=
  { users := [], events := [wEvent], ticket_tiers := [wTier],
    orders := [], tickets := [] }

/-- A request for 2 seats of the 1-seat-remaining tier of `wdb`. -/
def wreqTooMany : OrderReq :=
  { eventId := 1
    tickets := [{ tierId := 1, quantity := 2, attendeeName := "Jane Doe",
                  attendeeEmail := "jane@example.com" }]
    billingEmail := "jane@example.com", billingName := "Jane Doe" }

/-- A request for the last remaining seat of `wdb`. -/
def wreqOk : OrderReq :=
  { eventId := 1
    tickets := [{ tierId := 1, quantity := 1, attendeeName := "Jane Doe",
                  attendeeEmail := "jane@example.com" }]
    billingEmail := "jane@example.com", billingName := "Jane Doe" }

/-- An active 2-seat tier with nothing sold. -/
def oversellTier : TicketTier :=
  { id := 1, event_id := 1, name := "GA", description := "", price := 10,
    quantity := 2, sold_quantity := 0, sales_start_date := none,
    sales_end_date := none, is_active := true }

/-- One published event with one active 2-seat tier, nothing sold. -/
def oversellDb : DB :=
  { users := [], events := [wEvent], ticket_tiers := [oversellTier],
    orders := [], tickets := [] }

/-- A request naming the same tier in two line items (2 seats + 1 seat). -/
def oversellReq : OrderReq :=
  { eventId := 1
    tickets := [{ tierId := 1, quantity := 2, attendeeName := "Jane Doe",
                  attendeeEmail := "jane@example.com" },
                { tierId := 1, quantity := 1, attendeeName := "John Doe",
                  attendeeEmail := "john@example.com" }]
    billingEmail := "jane@example.com", billingName := "Jane Doe" }

/-! ### Claim C1 -/

/-- C1: the claimed invariant `0 ≤ sold_quantity ≤ quantity` is violated by
the reservation operation itself.  The order-creation endpoint (validation
middleware included) accepts a request that lists the same 2-seat tier in
two line items (2 seats + 1 seat): each per-item capacity check reads the
pre-transaction `sold_quantity` because the `UPDATE` statements only run
after the validation loop, so both checks pass against `sold_quantity = 0`
and the committed state has `sold_quantity = 3 > quantity = 2`. -/
theorem c1_oversell_at_failing_input :
    (postOrder allEmailsOk oversellDb oversellReq 7 wfr none).2 =
      some (.ok { orderId := 1, orderNumber := "ORD-1", totalAmount := 30 }) ∧
    ((postOrder allEmailsOk oversellDb oversellReq 7 wfr none).1.ticket_tiers.map
      fun tt => tt.sold_quantity) = [3] ∧
    (oversellDb.ticket_tiers.map fun tt => tt.quantity) = [2] := by
  decide

/-! ### Claim C2 -/

/-- C2: if any per-tier validation fails (tier missing or inactive,
insufficient capacity, outside the sales window — compare
`validateItems`) or the underlying store raises an error at any point of
the transaction (any injected fault index), the request completes with no
tier's `sold_quantity` changed and no `orders` row and no `tickets` row
persisted: the transaction rolls back to the exact pre-state. -/
theorem c2_failed_reservation_has_no_effects (db db2 : DB) (req : OrderReq)
    (uid : Nat) (fr : Fresh) (fault : Option Nat) (e : CreateErr)
    (h : createOrder db req uid fr fault = (db2, .error e)) :
    db2.ticket_tiers = db.ticket_tiers ∧ db2.orders = db.orders ∧
    db2.tickets = db.tickets := by
  rw [createOrder_error_rollback h]
  exact ⟨rfl, rfl, rfl⟩

/-- Witness for C2 at concrete inputs: a capacity failure and an injected
store failure in the mutation phase both leave the database untouched. -/
theorem c2_witness :
    ((createOrder wdb wreqTooMany 7 wfr none).1.ticket_tiers =
        wdb.ticket_tiers ∧
     (createOrder wdb wreqTooMany 7 wfr none).1.orders = wdb.orders ∧
     (createOrder wdb wreqTooMany 7 wfr none).1.tickets = wdb.tickets) ∧
    ((createOrder wdb wreqOk 7 wfr (some 3)).1.ticket_tiers =
        wdb.ticket_tiers ∧
     (createOrder wdb wreqOk 7 wfr (some 3)).1.orders = wdb.orders ∧
     (createOrder wdb wreqOk 7 wfr (some 3)).1.tickets = wdb.tickets) :=
  ⟨c2_failed_reservation_has_no_effects wdb wdb wreqTooMany 7 wfr none
      (.notEnoughTickets "GA" 1) (by decide),
   c2_failed_reservation_has_no_effects wdb wdb wreqOk 7 wfr (some 3)
      .storeFailure (by decide)⟩

/-! ### Claim C3 -/

/-- The buyer of the sample orders. -/
def wBuyer : UserRow :=
  { id := 1, email := "buyer@example.com", role := .customer }

/-- An active 5-seat tier with 1 seat sold. -/
def c3tier : TicketTier :=
  { id := 1, event_id := 1, name := "GA", description := "", price := 10,
    quantity := 5, sold_quantity := 1, sales_start_date := none,
    sales_end_date := none, is_active := true }

/-- A pending one-ticket order. -/
def c3order : Order :=
  { id := 1, user_id := 1, event_id := 1, order_number := "ORD-1",
    total_amount := 10, status := .pending,
    stripe_payment_intent_id := none, stripe_session_id := none,
    billing_email := "buyer@example.com", billing_name := "Buyer" }

/-- The single placeholder ticket of `c3order`. -/
def c3ticket : Ticket :=
  { id := 1, order_id := 1, ticket_tier_id := 1, ticket_code := "TKT-1",
    attendee_name := "Buyer", attendee_email := "buyer@example.com",
    status := .active, qr_code := none }

/-- A paid-for pending order with one ticket, its buyer and its event. -/
def c3db0 : DB :=
  { users := [wBuyer], events := [wEvent], ticket_tiers := [c3tier],
    orders := [c3order], tickets := [c3ticket] }

/-- The success event for order 1. -/
def c3pi : PaymentIntent := { id := "pi_1", orderId := 1 }

/-- The state after the first delivery of the success event. -/
def c3db1 : DB := (handlePaymentSuccess c3db0 c3pi).1

/-- C3: delivering the payment-success event a second time for an order
that is already `paid` is NOT a no-op in side effects.  The handler has no
source-state guard: the second delivery leaves the database unchanged (the
unconditional UPDATE rewrites the same values) but publishes the
`order_confirmation` email message and the `ticket_generation` message
again, re-triggering notification and ticket issuance. -/
theorem c3_duplicate_success_event_republishes :
    (c3db1.orders.map fun o => o.status) = [.paid] ∧
    handlePaymentSuccess c3db1 c3pi =
      (c3db1, [.orderConfirmation "buyer@example.com" 1,
               .ticketGeneration 1 [1]]) := by
  decide

/-! ### Claim C4 -/

/-- An active 5-seat tier with 2 seats sold. -/
def c4tier : TicketTier :=
  { id := 1, event_id := 1, name := "GA", description := "", price := 10,
    quantity := 5, sold_quantity := 2, sales_start_date := none,
    sales_end_date := none, is_active := true }

/-- A pending two-ticket order. -/
def c4order : Order :=
  { id := 1, user_id := 1, event_id := 1, order_number := "ORD-1",
    total_amount := 20, status := .pending,
    stripe_payment_intent_id := none, stripe_session_id := none,
    billing_email := "buyer@example.com", billing_name := "Buyer" }

/-- First placeholder ticket of `c4order`. -/
def c4ticketA : Ticket :=
  { id := 1, order_id := 1, ticket_tier_id := 1, ticket_code := "TKT-1",
    attendee_name := "A", attendee_email := "a@example.com",
    status := .active, qr_code := none }

/-- Second placeholder ticket of `c4order`, same tier. -/
def c4ticketB : Ticket :=
  { id := 2, order_id := 1, ticket_tier_id := 1, ticket_code := "TKT-2",
    attendee_name := "B", attendee_email := "b@example.com",
    status := .active, qr_code := none }

/-- A pending order holding 2 tickets of the same tier
(`sold_quantity = 2`). -/
def c4db : DB :=
  { users := [], events := [wEvent], ticket_tiers := [c4tier],
    orders := [c4order], tickets := [c4ticketA, c4ticketB] }

/-- C4: cancelling a pending order with N = 2 ticket rows in one tier
restores only 1 unit of capacity, not 2.  The compensation statement is a
MySQL multiple-table UPDATE (`UPDATE ticket_tiers tt JOIN tickets t ... SET
tt.sold_quantity = tt.sold_quantity - 1 WHERE t.order_id = ?`), and MySQL
updates each matching `ticket_tiers` row once even when it joins several
ticket rows, so the decrement is one per distinct tier, not one per ticket
row: `sold_quantity` goes from 2 to 1 instead of to 0. -/
theorem c4_compensation_releases_one_per_tier :
    orderTicketCount c4db 1 1 = 2 ∧
    (cancelOrder c4db 1 1).2 = .cancelled ∧
    ((cancelOrder c4db 1 1).1.ticket_tiers.map fun tt => tt.sold_quantity)
      = [1] := by
  decide

/-! ### Claim C5 -/

/-- A paid one-ticket order. -/
def c5order : Order :=
  { id := 1, user_id := 1, event_id := 1, order_number := "ORD-1",
    total_amount := 10, status := .paid,
    stripe_payment_intent_id := some "pi_1", stripe_session_id := none,
    billing_email := "buyer@example.com", billing_name := "Buyer" }

/-- A paid order with one ticket (`sold_quantity = 1`). -/
def c5db : DB :=
  { users := [wBuyer], events := [wEvent], ticket_tiers := [c3tier],
    orders := [c5order], tickets := [c3ticket] }

/-- The failure event for order 1. -/
def c5pi : PaymentIntent := { id := "pi_1", orderId := 1 }

/-- C5: a payment-failure event for an order that is NOT `pending` is not
a no-op.  `handlePaymentFailure` has no source-state guard: delivered for a
`paid` order it rewrites the status to `cancelled` and runs the inventory
compensation again (`sold_quantity` drops from 1 to 0 although the paid
reservation still holds its seat), contradicting the claimed
guarded-transition semantics. -/
theorem c5_failure_event_overwrites_paid_order :
    (c5db.orders.map fun o => o.status) = [.paid] ∧
    ((handlePaymentFailure c5db c5pi).orders.map fun o => o.status)
      = [.cancelled] ∧
    ((handlePaymentFailure c5db c5pi).ticket_tiers.map
      fun tt => tt.sold_quantity) = [0] := by
  decide

/-! ### Claim C6 -/

/-- C6: a successfully created order's `total_amount` equals
`Σ (tier.price × requestedQuantity)` over the request's line items, at the
prices read under the row lock of that transaction, both in the response
and in the persisted `orders` row; and no later operation — a tier price
change (`updateTier`/`deleteTier`), webhook processing (`handleWebhook`
for every event type and `processPaymentWebhook` for every message), or a
state transition (`cancelOrder`) — modifies any persisted order's
`total_amount`. -/
theorem c6_total_snapshot_immutable :
    (∀ (db db2 : DB) (req : OrderReq) (uid : Nat) (fr : Fresh)
       (fault : Option Nat) (r : CreateOk),
       createOrder db req uid fr fault = (db2, .ok r) →
       r.totalAmount = specOrderTotal db req.eventId req.tickets ∧
       ∃ o, o ∈ db2.orders ∧ o.id = fr.orderId ∧
         o.total_amount = specOrderTotal db req.eventId req.tickets) ∧
    (∀ (db : DB) (uid : Nat) (role : Role) (tid : Nat) (p : TierPatch),
       totalsPreserved db (updateTier db uid role tid p).1) ∧
    (∀ (db : DB) (uid : Nat) (role : Role) (tid : Nat),
       totalsPreserved db (deleteTier db uid role tid).1) ∧
    (∀ (db : DB) (uid oid : Nat),
       totalsPreserved db (cancelOrder db uid oid).1) ∧
    (∀ (db : DB) (sv : Bool) (ev : StripeEvent),
       totalsPreserved db (handleWebhook db sv ev).1) ∧
    (∀ (db : DB) (m : QueueMsg),
       totalsPreserved db (processPaymentWebhook db m).1) := by
  refine ⟨?_, totalsPreserved_updateTier, totalsPreserved_deleteTier,
    totalsPreserved_cancelOrder, totalsPreserved_handleWebhook,
    totalsPreserved_processPaymentWebhook⟩
  intro db db2 req uid fr fault r h
  unfold createOrder at h
  by_cases hf : fault = some 0
  · rw [if_pos hf] at h
    exact absurd (Prod.mk.injEq _ _ _ _ ▸ h).2 (by simp)
  · rw [if_neg hf] at h
    cases hev : db.events.find? (fun e =>
        (e.id : ℤ) = req.eventId && e.status = .published) with
    | none =>
      rw [hev] at h
      exact absurd (Prod.mk.injEq _ _ _ _ ▸ h).2 (by simp)
    | some evr =>
      rw [hev] at h
      dsimp only [] at h
      cases hv : validateItems db req.eventId fr.now fault
          req.tickets 1 0 [] with
      | error e =>
        rw [hv] at h
        exact absurd (Prod.mk.injEq _ _ _ _ ▸ h).2 (by simp)
      | ok tup =>
        obtain ⟨total, ups, n⟩ := tup
        rw [hv] at h
        dsimp only [] at h
        by_cases hflt : hitsFault fault n (n + 1 + ups.length +
            (req.tickets.map fun it => it.quantity.toNat).sum) = true
        · rw [if_pos hflt] at h
          exact absurd (Prod.mk.injEq _ _ _ _ ▸ h).2 (by simp)
        · rw [if_neg hflt] at h
          obtain ⟨h1, h2⟩ := Prod.mk.injEq _ _ _ _ ▸ h
          have hT := validateItems_ok_total db req.eventId fr.now fault
            req.tickets 1 0 [] total ups n hv
          rw [zero_add] at hT
          injection h2 with h3
          constructor
          · rw [← h3, ← hT]
          · subst h1
            refine ⟨newOrderRow req uid fr total, ?_, rfl, hT⟩
            exact List.mem_append_right db.orders (List.mem_singleton_self _)

/-- Witness for C6: a concrete successful reservation whose response total
matches the locked-price sum and whose stored row carries it. -/
theorem c6_witness :
    (10 : ℤ) = specOrderTotal wdb wreqOk.eventId wreqOk.tickets ∧
    ∃ o, o ∈ (createOrder wdb wreqOk 7 wfr none).1.orders ∧
      o.id = wfr.orderId ∧
      o.total_amount = specOrderTotal wdb wreqOk.eventId wreqOk.tickets :=
  c6_total_snapshot_immutable.1 wdb (createOrder wdb wreqOk 7 wfr none).1
    wreqOk 7 wfr none
    { orderId := 1, orderNumber := "ORD-1", totalAmount := 10 } (by decide)

/-! ### Claim C7 -/

/-- C7: per reservation request, each requested tier is validated in this
order: (1) the tier belongs to the given event and is active, (2)
`sold_quantity + requestedQuantity ≤ quantity`, (3) the current time is
within the sales window when set — the transaction's error is exactly the
first failing check of the first failing line item (`specFirstTierError`
formalises the spec's ordering), the failure aborts the whole transaction
(the post-state is the pre-state) with a client error (HTTP 400), and a
capacity violation carries the offending tier's name and its remaining
capacity `quantity - sold_quantity`. -/
theorem c7_per_tier_validation_order (db : DB) (req : OrderReq) (uid : Nat)
    (fr : Fresh) (evr : EventRow)
    (hev : db.events.find? (fun e => (e.id : ℤ) = req.eventId &&
      e.status = .published) = some evr) :
    (∀ e : CreateErr,
      createOrder db req uid fr none = (db, .error e) ↔
        specFirstTierError db req.eventId fr.now req.tickets = some e) ∧
    (∀ e : CreateErr,
      specFirstTierError db req.eventId fr.now req.tickets = some e →
        e.httpStatus = 400) ∧
    (∀ (it : LineItem) (tier : TicketTier),
      findTier db req.eventId it.tierId = some tier →
      ¬ (tier.sold_quantity + it.quantity ≤ tier.quantity) →
      specTierCheck db req.eventId fr.now it =
        some (.notEnoughTickets tier.name
          (tier.quantity - tier.sold_quantity))) := by
  refine ⟨?_, specFirstTierError_httpStatus db req.eventId fr.now req.tickets,
    ?_⟩
  · intro e
    rw [← validateItems_error_iff db req.eventId fr.now req.tickets 1 0 [] e]
    constructor
    · intro h
      cases hv : validateItems db req.eventId fr.now none req.tickets
          1 0 [] with
      | error e2 =>
        have hrun : createOrder db req uid fr none = (db, .error e2) := by
          simp [createOrder, hev, hv]
        rw [hrun] at h
        obtain ⟨-, h2⟩ := Prod.mk.injEq _ _ _ _ ▸ h
        injection h2 with h3
        rw [h3]
      | ok tup =>
        obtain ⟨total, ups, n⟩ := tup
        have hrun : (createOrder db req uid fr none).2 =
            .ok { orderId := fr.orderId, orderNumber := fr.orderNumber,
                  totalAmount := total } := by
          simp [createOrder, hev, hv, hitsFault]
        rw [h] at hrun
        cases hrun
    · intro hv
      have hv2 : validateItems db req.eventId fr.now none req.tickets
          1 0 [] = .error e := hv
      simp [createOrder, hev, hv2]
  · intro it tier hft hcap
    unfold specTierCheck
    rw [hft]
    dsimp only []
    rw [if_pos hcap]

/-- Witness for C7 at a concrete state: a 2-seat request against the
1-remaining-seat tier of `wdb` fails with `notEnoughTickets "GA" 1`
(naming the tier and the remaining capacity), rolls the transaction back,
and that error maps to HTTP 400. -/
theorem c7_witness :
    createOrder wdb wreqTooMany 7 wfr none =
      (wdb, .error (.notEnoughTickets "GA" 1)) ∧
    CreateErr.httpStatus (.notEnoughTickets "GA" 1) = 400 :=
  ⟨((c7_per_tier_validation_order wdb wreqTooMany 7 wfr wEvent
      (by decide)).1 (.notEnoughTickets "GA" 1)).mpr (by decide),
   (c7_per_tier_validation_order wdb wreqTooMany 7 wfr wEvent
      (by decide)).2.1 (.notEnoughTickets "GA" 1) (by decide)⟩

/-! ### Claim C8 -/

/-- An empty database for the webhook counterexample. -/
def c8db : DB :=
  { users := [], events := [], ticket_tiers := [], orders := [],
    tickets := [] }

/-- C8 counterexample: the claim says the endpoint returns HTTP 200 on an
event whose signature fails verification; on the code a failed signature
check answers `res.status(400)`, not 200, at this concrete input. -/
theorem c8_counterexample_bad_signature_is_400 :
    (handleWebhook c8db false
      (.paymentIntentSucceeded { id := "pi_1", orderId := 1 })).2.1 = 400 ∧
    (400 : Nat) ≠ 200 := by
  decide

/-- C8 (amended): the payment webhook endpoint returns 400 (not 200) on an
event whose signature fails verification, and such an event causes no
state change and no published message; a signature-verified event is
acknowledged with HTTP 200. -/
theorem c8_webhook_statuses (db : DB) (ev : StripeEvent) :
    handleWebhook db false ev = (db, 400, []) ∧
    (handleWebhook db true ev).2.1 = 200 := by
  constructor
  · rfl
  · unfold handleWebhook
    cases ev <;> rfl

/-! ### Claim C9 -/

/-- C9 (amended): a ticket tier with `sold_quantity > 0` can be neither
updated nor deleted — both routes leave the database (hence the tier row,
its price and its quantity) unchanged for every requester; a requester who
is the event's organizer or an admin receives HTTP 400 (`soldTier`), while
an organizer who does not own the event receives HTTP 403
(`accessDenied`), not 400. -/
theorem c9_sold_tier_frozen (db : DB) (uid : Nat) (role : Role)
    (tierId : Nat) (p : TierPatch) (tt : TicketTier) (evr : EventRow)
    (hj : tierJoin db tierId = some (tt, evr))
    (hsold : 0 < tt.sold_quantity) :
    (updateTier db uid role tierId p).1 = db ∧
    (deleteTier db uid role tierId).1 = db ∧
    ((role = .admin ∨ (role = .organizer ∧ evr.organizer_id = uid)) →
      (updateTier db uid role tierId p).2 = .soldTier ∧
      (deleteTier db uid role tierId).2 = .soldTier ∧
      TierEditResult.httpStatus .soldTier = 400) ∧
    (role = .organizer → evr.organizer_id ≠ uid →
      (updateTier db uid role tierId p).2 = .accessDenied ∧
      (deleteTier db uid role tierId).2 = .accessDenied ∧
      TierEditResult.httpStatus .accessDenied = 403) := by
  have hsold2 : tt.sold_quantity > 0 := hsold
  cases role with
  | customer =>
    refine ⟨rfl, rfl, ?_, ?_⟩
    · intro hauth
      rcases hauth with hx | ⟨hx, -⟩ <;> cases hx
    · intro hx; cases hx
  | admin =>
    have hu : updateTier db uid .admin tierId p = (db, .soldTier) := by
      simp [updateTier, hj, hsold2]
    have hd : deleteTier db uid .admin tierId = (db, .soldTier) := by
      simp [deleteTier, hj, hsold2]
    refine ⟨by rw [hu], by rw [hd], ?_, ?_⟩
    · intro hauth
      exact ⟨by rw [hu], by rw [hd], rfl⟩
    · intro hx; cases hx
  | organizer =>
    by_cases hown : evr.organizer_id = uid
    · have hu : updateTier db uid .organizer tierId p = (db, .soldTier) := by
        simp [updateTier, hj, hown, hsold2]
      have hd : deleteTier db uid .organizer tierId = (db, .soldTier) := by
        simp [deleteTier, hj, hown, hsold2]
      refine ⟨by rw [hu], by rw [hd], ?_, ?_⟩
      · intro hauth
        exact ⟨by rw [hu], by rw [hd], rfl⟩
      · intro hx hown2
        exact absurd hown hown2
    · have hu : updateTier db uid .organizer tierId p =
          (db, .accessDenied) := by
        simp [updateTier, hj, hown]
      have hd : deleteTier db uid .organizer tierId =
          (db, .accessDenied) := by
        simp [deleteTier, hj, hown]
      refine ⟨by rw [hu], by rw [hd], ?_, ?_⟩
      · intro hauth
        rcases hauth with hx | ⟨-, hx⟩
        · cases hx
        · exact absurd hx hown
      · intro hx hown2
        exact ⟨by rw [hu], by rw [hd], rfl⟩

/-- A tier with one seat sold, owned by organizer 1. -/
def c9tier : TicketTier :=
  { id := 1, event_id := 1, name := "GA", description := "", price := 10,
    quantity := 5, sold_quantity := 1, sales_start_date := none,
    sales_end_date := none, is_active := true }

/-- The event of `c9tier`, organized by user 1. -/
def c9event : EventRow :=
  { id := 1, organizer_id := 1, title := "Conf", status := .published }

/-- A database with a sold tier owned by organizer 1. -/
def c9db : DB :=
  { users := [], events := [c9event], ticket_tiers := [c9tier],
    orders := [], tickets := [] }

/-- C9 counterexample: the claim says every tier-update and tier-delete
request against a tier with `sold_quantity > 0` is answered HTTP 400;
organizer 2, who does not own the event, gets HTTP 403 instead (the row is
still unchanged). -/
theorem c9_counterexample_foreign_organizer_gets_403 :
    (updateTier c9db 2 .organizer 1 TierPatch.empty).2.httpStatus = 403 ∧
    (deleteTier c9db 2 .organizer 1).2.httpStatus = 403 ∧
    (c9db.ticket_tiers.map fun tt => tt.sold_quantity) = [1] ∧
    (403 : Nat) ≠ 400 := by
  decide

/-- Witness for C9 at a concrete state: the owning organizer's update and
delete requests against the sold tier of `c9db` leave the database
unchanged and are answered `soldTier` (HTTP 400). -/
theorem c9_witness :
    (updateTier c9db 1 .organizer 1 TierPatch.empty).1 = c9db ∧
    (updateTier c9db 1 .organizer 1 TierPatch.empty).2 = .soldTier ∧
    (deleteTier c9db 1 .organizer 1).1 = c9db ∧
    (deleteTier c9db 1 .organizer 1).2 = .soldTier :=
  ⟨(c9_sold_tier_frozen c9db 1 .organizer 1 TierPatch.empty c9tier c9event
      (by decide) (by decide)).1,
   ((c9_sold_tier_frozen c9db 1 .organizer 1 TierPatch.empty c9tier c9event
      (by decide) (by decide)).2.2.1 (Or.inr ⟨rfl, rfl⟩)).1,
   (c9_sold_tier_frozen c9db 1 .organizer 1 TierPatch.empty c9tier c9event
      (by decide) (by decide)).2.1,
   ((c9_sold_tier_frozen c9db 1 .organizer 1 TierPatch.empty c9tier c9event
      (by decide) (by decide)).2.2.1 (Or.inr ⟨rfl, rfl⟩)).2.1⟩

/-! ### Claim C10 -/

/-- C10: every request the order-creation endpoint lets through validation
satisfies the bounds (1 to 20 line items, each quantity in `[1, 10]`,
total at current prices at most 10000), and any request outside those
bounds is rejected before the reservation transaction begins, with the
database unchanged (the validation middleware answers 400,
rendered `none`). -/
theorem c10_request_bounds (v : Validators) (db : DB) (req : OrderReq)
    (uid : Nat) (fr : Fresh) (fault : Option Nat) :
    (∀ (db2 : DB) (res : Except CreateErr CreateOk),
      postOrder v db req uid fr fault = (db2, some res) →
      reqBounds db req) ∧
    (¬ reqBounds db req → postOrder v db req uid fr fault = (db, none)) := by
  constructor
  · intro db2 res h
    by_cases hv : validateOrderCreation v db req = true
    · exact validateOrderCreation_bounds v db req hv
    · unfold postOrder at h
      rw [if_neg hv] at h
      obtain ⟨-, h2⟩ := Prod.mk.injEq _ _ _ _ ▸ h
      cases h2
  · intro hnb
    unfold postOrder
    rw [if_neg (fun hv => hnb (validateOrderCreation_bounds v db req hv))]

/-- A request with a zero quantity, outside the claimed bounds. -/
def c10badReq : OrderReq :=
  { eventId := 1
    tickets := [{ tierId := 1, quantity := 0, attendeeName := "Jane Doe",
                  attendeeEmail := "jane@example.com" }]
    billingEmail := "jane@example.com", billingName := "Jane Doe" }

/-- Witness for C10 at a concrete input: a request with quantity 0 is
rejected before the transaction with the database unchanged. -/
theorem c10_witness :
    postOrder allEmailsOk wdb c10badReq 7 wfr none = (wdb, none) :=
  (c10_request_bounds allEmailsOk wdb c10badReq 7 wfr none).2
    (fun hb => absurd
      ((hb.2.2.1 _ (List.mem_singleton_self _)).1) (by decide))

end Ticketing
